import Mathlib

/-!
A shallow embedding of the `nengo_examples` repository: three notebooks
(`deeplearning/TF-Nengo-Autoencoders.ipynb`,
`htbab_tutorials/ch7-spa-sequence-routed.ipynb`, and the structured
representations notebook).  Pure configuration values and the notebooks'
own control flow (the training cell, the pretrained-weight download
branch, the `gen_data` helper, the `start` input function) are translated
into Lean definitions; the external library primitives they call
(`tf.contrib.layers.fully_connected`, `PresentInput(...).run`, `sim.loss`,
`time.time`, `urlretrieve`, `ZipFile.extractall`) are abstracted as
function parameters, so that every theorem quantifies over their
behaviour.
-/

namespace NengoExamples

/-! ### Autoencoder notebook: network parameters

From the cell `# Network Parameters` of `TF-Nengo-Autoencoders.ipynb`. -/

/-- `n_hidden_1 = 256  # 1st layer num features`. -/
def n_hidden_1 : Nat := 256

/-- `n_hidden_2 = 128  # 2nd layer num features`. -/
def n_hidden_2 : Nat := 128

/-- `n_input = 784  # MNIST data input (img shape: 28*28)`. -/
def n_input : Nat := 784

/-! ### The `Encoder` and `Decoder` TensorNode classes

Each class has a `pre_build` method that records the shapes, and a
`__call__` method that applies `tf.contrib.layers.fully_connected`
twice.  The dense-layer primitive is external to the repository, so it
is abstracted as a function argument `fully_connected : α → Nat → α`
taking a tensor and a unit count. -/

/-- Fields set by `Encoder.pre_build`. -/
structure Encoder where
  n_mini : Nat
  size_in : Nat
  size_out : Nat

/-- `Encoder.pre_build(self, shape_in, shape_out)`. -/
def Encoder.pre_build (self : Encoder) (shape_in shape_out : Nat × Nat) : Encoder :=
  { self with n_mini := shape_in.1, size_in := shape_in.2, size_out := shape_out.2 }

/-- `Encoder.__call__(self, t, x)`:
`dense = fully_connected(x, n_hidden_1); dense = fully_connected(dense, n_hidden_2); return dense`. -/
def Encoder.call {α τ : Type} (fully_connected : α → Nat → α)
    (_self : Encoder) (_t : τ) (x : α) : α :=
  let dense := fully_connected x n_hidden_1
  let dense := fully_connected dense n_hidden_2
  dense

/-- Fields set by `Decoder.pre_build`. -/
structure Decoder where
  n_mini : Nat
  size_in : Nat
  size_out : Nat

/-- `Decoder.pre_build(self, shape_in, shape_out)`. -/
def Decoder.pre_build (self : Decoder) (shape_in shape_out : Nat × Nat) : Decoder :=
  { self with n_mini := shape_in.1, size_in := shape_in.2, size_out := shape_out.2 }

/-- `Decoder.__call__(self, t, x)`:
`dense = fully_connected(x, n_hidden_1); dense = fully_connected(dense, self.size_out); return dense`. -/
def Decoder.call {α τ : Type} (fully_connected : α → Nat → α)
    (self : Decoder) (_t : τ) (x : α) : α :=
  let dense := fully_connected x n_hidden_1
  let dense := fully_connected dense self.size_out
  dense

/-! ### The autoencoder network objects -/

/-- The size configuration passed to a `nengo_dl.TensorNode` constructor. -/
structure TensorNodeCfg where
  size_in : Nat
  size_out : Nat
  label : String

/-- `tf_encode = nengo_dl.TensorNode(Encoder(), size_in=28 * 28, size_out=n_hidden_2, label='H1')`. -/
def tf_encode : TensorNodeCfg :=
  { size_in := 28 * 28, size_out := n_hidden_2, label := "H1" }

/-- `tf_decode = nengo_dl.TensorNode(Decoder(), size_in=n_hidden_2, size_out=n_input, label='H2')`. -/
def tf_decode : TensorNodeCfg :=
  { size_in := n_hidden_2, size_out := n_input, label := "H2" }

/-- The network objects of the autoencoder model that `gen_data`'s
dictionaries are keyed on: the input node `inp`, the two TensorNodes,
and the two probes. -/
inductive NetObj where
  | inp
  | tf_encode
  | tf_decode
  | input_probe
  | output_probe
deriving DecidableEq

/-! ### `gen_data`

`gen_data(steps, batchsize, pos)` builds one list `input_array` whose
`k`-th entry is `PresentInput(mnist.train.images[pos + k:], 0.001*steps).run(0.001*steps)`,
and returns the pair of single-entry dictionaries
`({inp: np.asarray(input_array)}, {output_probe: np.asarray(input_array)})`.
The external `PresentInput(...).run` pipeline is abstracted as
`present : Nat → Nat → δ`, applied to the slice start `pos + k` and the
step count `steps`.  Dictionaries keyed on network objects are embedded
as functions `NetObj → Option (List δ)`. -/
def gen_data {δ : Type} (present : Nat → Nat → δ) (steps batchsize pos : Nat) :
    (NetObj → Option (List δ)) × (NetObj → Option (List δ)) :=
  let input_array : List δ := (List.range batchsize).map fun k => present (pos + k) steps
  (fun o => if o = NetObj.inp then some input_array else none,
   fun o => if o = NetObj.output_probe then some input_array else none)

/-! ### The training cell's LOADING branch: download of pretrained weights

From the training cell of `TF-Nengo-Autoencoders.ipynb`:
```
if LOADING:
    ...
    param_path = os.path.join("nengo_autoencoder", "Nengo-Autoencoder")
    if not os.path.exists("nengo_autoencoder"):
        os.mkdir("nengo_autoencoder")
    if not os.path.exists(param_path + ".index"):
        param_zip_path = os.path.join("nengo_autoencoder", "nengo-autoencoder-params.zip")
        urlretrieve("https://github.com/.../Nengo-Autoencoder-Weights.zip", param_zip_path)
        with zipfile.ZipFile(param_zip_path) as f:
            f.extractall("nengo_autoencoder")
        os.remove(param_zip_path)
    sim.load_params(param_path)
else:
    ...  # the training loop: sim.loss / sim.run / sim.train only, no file or network operation
```
The local filesystem state the branch reads and writes is embedded as
three booleans; `urlretrieve` and `ZipFile(...).extractall` are
external fallible calls, abstracted as `Except` results supplied as
parameters.  The branch is untouched by any `try`/`except`, so an error
from either call is returned unchanged.  The `Nat` in the result counts
the network requests (`urlretrieve` calls) the run completes. -/

/-- The parts of the local filesystem the LOADING branch touches:
whether the directory `nengo_autoencoder` exists, whether the parameter
index file `nengo_autoencoder/Nengo-Autoencoder.index` exists, and
whether the zip `nengo_autoencoder/nengo-autoencoder-params.zip`
exists. -/
structure FS where
  dirExists : Bool
  indexExists : Bool
  zipExists : Bool
deriving DecidableEq

/-- Outcomes of the two external fallible calls the LOADING branch
makes: `urlretrieve` and `ZipFile(...).extractall`. -/
structure DlEffects (ε : Type) where
  urlretrieveResult : Except ε Unit
  extractResult : Except ε Unit

/-- Both external calls succeed. -/
def okEffects (ε : Type) : DlEffects ε := ⟨Except.ok (), Except.ok ()⟩

/-- The body of the `if LOADING:` branch, from `os.mkdir` on:
make the directory when missing; when the index file is missing,
download the zip, extract it (which creates the index file), and delete
the zip; otherwise do nothing further.  Errors of the external calls
propagate unchanged (the source has no `try`/`except`). -/
def loadingBranch {ε : Type} (eff : DlEffects ε) (fs : FS) : Except ε (FS × Nat) :=
  let fs1 := if fs.dirExists then fs else { fs with dirExists := true }
  if fs1.indexExists then
    Except.ok (fs1, 0)
  else
    match eff.urlretrieveResult with
    | Except.error e => Except.error e
    | Except.ok _ =>
      let fs2 := { fs1 with zipExists := true }
      match eff.extractResult with
      | Except.error e => Except.error e
      | Except.ok _ =>
        let fs3 := { fs2 with indexExists := true }
        Except.ok ({ fs3 with zipExists := false }, 1)

/-- The training cell's effect on the filesystem and the network: when
`LOADING` is set it runs the LOADING branch; otherwise it runs the
training loop, which performs no file or network operation. -/
def trainingCellNet {ε : Type} (LOADING : Bool) (eff : DlEffects ε) (fs : FS) :
    Except ε (FS × Nat) :=
  if LOADING then loadingBranch eff fs else Except.ok (fs, 0)

/-! ### Script shape: the code cells of the three notebooks

Each code cell of each notebook is tagged with the kind of work its
library calls perform.  `setup` is imports and flag definitions,
`config` is defining parameter values or helper functions / vocabulary
entries, the remaining four tags are the phases named by the spec:
dataset load, network construction, a simulation run, plotting. -/

/-- The kind of work one code cell performs. -/
inductive Phase where
  | setup
  | datasetLoad
  | config
  | networkConstruct
  | simRun
  | plot
deriving DecidableEq

/-- The code cells of `TF-Nengo-Autoencoders.ipynb`, in order:
imports and the `LOADING` flag; the MNIST `read_data_sets` load; the
network parameters; the `Encoder`/`Decoder` classes and the
`nengo.Network` construction; the `gen_data` helper definition; the
training cell (runs `sim.loss` / `sim.run` / `sim.train` inside
`nengo_dl.Simulator`); the `plt.subplots` / `imshow` cell. -/
def autoencoderCells : List Phase :=
  [Phase.setup, Phase.datasetLoad, Phase.config, Phase.networkConstruct,
   Phase.config, Phase.simRun, Phase.plot]

/-- The code cells of `ch7-spa-sequence-routed.ipynb`, in order:
imports; the `spa.SPA` model construction (states, actions, basal
ganglia, thalamus, input); the `IPythonViz` cell that runs the model in
the external visualizer; the `Image` display cell. -/
def routedSequencingCells : List Phase :=
  [Phase.setup, Phase.networkConstruct, Phase.simRun, Phase.plot]

/-- The code cells of the structured-representations notebook, in
order: imports; the vocabulary and `nengo.Network` construction; the
probes cell; `vocab.add('C', vocab.parse('A * B'))`; the
`nengo.Simulator` run; the decoded-ensemble plots; the similarity plot;
the cosine-similarity plot; the second, `spa`-package model
construction; its `IPythonViz` run; the final `Image` display. -/
def structuredRepCells : List Phase :=
  [Phase.setup, Phase.networkConstruct, Phase.networkConstruct, Phase.config,
   Phase.simRun, Phase.plot, Phase.plot, Phase.plot,
   Phase.networkConstruct, Phase.simRun, Phase.plot]

/-- The subsequence of a notebook's cells that are one of the four
phases named by the spec. -/
def corePhases (cells : List Phase) : List Phase :=
  cells.filter fun p =>
    p == Phase.datasetLoad || p == Phase.networkConstruct
      || p == Phase.simRun || p == Phase.plot

/-- A script is a sequence performing, in order: a dataset load, a
network construction, a simulation run, plotting. -/
def fourPhaseScript (cells : List Phase) : Prop :=
  corePhases cells = [Phase.datasetLoad, Phase.networkConstruct, Phase.simRun, Phase.plot]

/-! ### Routed sequencing: the `start` input function

```
def start(t):
    if t < 0.4:
        return '0.8*START+D'
    else:
        return '0'
```
Simulation time is embedded as an exact rational. -/

/-- The `start(t)` input function of the routed-sequencing model. -/
def start (t : ℚ) : String :=
  if t < 0.4 then "0.8*START+D" else "0"

/-! ### The autoencoder training cell's own variables

The cell preceding the `with nengo_dl.Simulator(...)` block assigns
`n_examples = 64`, `n_iters = int(55000/(n_examples))`, `losses = []`,
`start_time = time.time()`, `round_time = 0`, `learning_rate = 0.05`,
`steps = 10`, `counted = 0`, `delta = 1`, `repetitions = 15`, and the
cell then mutates `losses`, `counted`, `delta`, `round_time` and
`start_time` across the iterations of its two nested loops.  The values
returned by the external calls `sim.loss` and `time.time()` are
abstracted as sequences `lossF, timeF : Nat → ℚ`, indexed by the number
of prior calls. -/

/-- `n_examples = 64`. -/
def n_examples : Nat := 64

/-- `n_iters = int(55000/(n_examples))`; `int` truncates, as Nat
division does. -/
def n_iters : Nat := 55000 / n_examples

/-- `repetitions = 15`. -/
def repetitions : Nat := 15

/-- The notebook-owned mutable variables of the training cell, plus a
counter of `time.time()` calls made so far (the index into `timeF`). -/
structure TrainState where
  losses : List ℚ
  counted : Nat
  delta : ℚ
  round_time : ℚ
  start_time : ℚ
  clock : Nat
deriving DecidableEq

/-- The variables as assigned just before the `with` block:
`losses = []`, `start_time = time.time()` (the first `time.time()`
call), `round_time = 0`, `counted = 0`, `delta = 1`. -/
def initTrainState (timeF : Nat → ℚ) : TrainState :=
  { losses := [], counted := 0, delta := 1,
    round_time := 0, start_time := timeF 0, clock := 1 }

/-- One iteration of the inner `for i in range(n_iters)` loop.
`gen_data` and `sim.train(..., n_epochs=2)` bind no notebook variable;
then `round_time = (round_time*(i) + time.time() - start_time) / (i+1)`
and `start_time = time.time()`.  The `print` calls bind nothing. -/
def innerStep (timeF : Nat → ℚ) (i : Nat) (s : TrainState) : TrainState :=
  { s with
    round_time := (s.round_time * (i : ℚ) + timeF s.clock - s.start_time) / ((i : ℚ) + 1),
    start_time := timeF (s.clock + 1),
    clock := s.clock + 2 }

/-- The inner training loop: `for i in range(n_iters): ...`. -/
def innerTrainLoop (timeF : Nat → ℚ) (s : TrainState) : TrainState :=
  (List.range n_iters).foldl (fun s i => innerStep timeF i s) s

/-- The straight-line part of one outer-loop iteration:
`losses.append(sim.loss(input_dict, output_dict, 'mse'))`; when
`counted > 0`, `delta = losses[counted] - losses[counted-1]` (the local
`old_delta` is never read); `sim.run(0.001*steps)`; `counted = counted + 1`. -/
def repetitionBody (lossF : Nat → ℚ) (s : TrainState) : TrainState :=
  let losses := s.losses ++ [lossF s.losses.length]
  let delta := if s.counted > 0
    then losses.getD s.counted 0 - losses.getD (s.counted - 1) 0
    else s.delta
  { s with losses := losses, delta := delta, counted := s.counted + 1 }

/-- One full iteration of the outer `for e in range(repetitions)` loop:
the straight-line part followed by the inner training loop (`e` itself
is only printed in the ETA estimate). -/
def repetitionStep (timeF lossF : Nat → ℚ) (s : TrainState) : TrainState :=
  innerTrainLoop timeF (repetitionBody lossF s)

/-- The outer loop iterated `k` times (the source runs it
`repetitions` times). -/
def repetitionsLoop (timeF lossF : Nat → ℚ) (k : Nat) (s : TrainState) : TrainState :=
  (List.range k).foldl (fun s _ => repetitionStep timeF lossF s) s

/-- The whole training cell's effect on the notebook's variables.
Under `if LOADING:` the branch appends one `sim.loss` value, runs the
simulator, and loads the downloaded parameters (touching no other
variable); under `else:` the outer loop runs `repetitions` times.
After the branch, in both cases: one more `sim.loss` value is appended,
`delta` is printed when `counted > 0` (binding nothing), `sim.run`
executes, and `counted = counted + 1` once. -/
def trainCell (LOADING : Bool) (timeF lossF : Nat → ℚ) : TrainState :=
  let s0 := initTrainState timeF
  let s1 := if LOADING
    then { s0 with losses := s0.losses ++ [lossF s0.losses.length] }
    else repetitionsLoop timeF lossF repetitions s0
  let s2 := { s1 with losses := s1.losses ++ [lossF s1.losses.length] }
  { s2 with counted := s2.counted + 1 }

end NengoExamples

namespace NengoExamples

/-- C1: `Encoder.__call__(t, x)` returns the external dense-layer
primitive applied to `x` with 256 units and then `n_hidden_2 = 128`
units, and `Decoder.__call__(t, x)` returns it applied to `x` with 256
units and then `self.size_out` units.  Because `fully_connected` is
universally quantified, the equations show neither method performs any
other computation on `x`. -/
theorem encoder_decoder_two_dense_layers {α τ : Type}
    (fully_connected : α → Nat → α) (enc : Encoder) (dec : Decoder) (t : τ) (x : α) :
    Encoder.call fully_connected enc t x
        = fully_connected (fully_connected x 256) n_hidden_2
      ∧ n_hidden_2 = 128
      ∧ Decoder.call fully_connected dec t x
        = fully_connected (fully_connected x 256) dec.size_out :=
  ⟨rfl, rfl, rfl⟩

/-- C8: the two dictionaries returned by `gen_data(steps, batchsize, pos)`
carry the same array: the value stored under the input node key `inp` in
the first dictionary equals the value stored under the `output_probe`
key in the second. -/
theorem gen_data_same_array {δ : Type} (present : Nat → Nat → δ)
    (steps batchsize pos : Nat) :
    (gen_data present steps batchsize pos).1 NetObj.inp
      = (gen_data present steps batchsize pos).2 NetObj.output_probe := by
  simp [gen_data]

/-- C4: with the external calls succeeding, the training cell makes a
network request exactly when the `LOADING` flag is set and the local
parameter index file does not already exist (so on any run where the
parameter files are already present, zero requests are made), and after
a download the extracted zip archive is deleted; otherwise the zip's
presence is unchanged. -/
theorem download_one_time (ε : Type) (LOADING : Bool) (fs : FS) :
    trainingCellNet LOADING (okEffects ε) fs
      = Except.ok
          ({ dirExists := fs.dirExists || LOADING,
             indexExists := fs.indexExists || LOADING,
             zipExists := if LOADING && !fs.indexExists then false else fs.zipExists },
           if LOADING && !fs.indexExists then 1 else 0) := by
  rcases fs with ⟨d, i, z⟩
  cases LOADING <;> cases d <;> cases i <;> cases z <;> rfl

/-- C2 counterexample: the claim "no notebook stores a result in order
to skip re-fetching it on a later run" would make the LOADING branch's
network-request count insensitive to previously stored files.  It is
not: on an empty filesystem the branch makes one request (and stores
the directory and index file), while on the filesystem state that very
run leaves behind it makes zero requests. -/
theorem no_cache_counterexample :
    ¬ (∀ fs : FS,
        Except.map Prod.snd (loadingBranch (okEffects Unit) fs)
          = Except.map Prod.snd (loadingBranch (okEffects Unit) ⟨false, false, false⟩)) := by
  intro h
  have h1 := h ⟨true, true, false⟩
  simp [loadingBranch, okEffects, Except.map] at h1

/-- C2 amended: the downloaded parameter files are a cache.  Any
successful run of the LOADING branch leaves the filesystem in a state
from which a second run makes no network request and changes nothing. -/
theorem loading_branch_caches (fs fs' : FS) (n : Nat)
    (h : loadingBranch (okEffects Unit) fs = Except.ok (fs', n)) :
    loadingBranch (okEffects Unit) fs' = Except.ok (fs', 0) := by
  rcases fs with ⟨d, i, z⟩
  cases d <;> cases i <;> cases z <;>
    · simp [loadingBranch, okEffects] at h
      obtain ⟨h1, -⟩ := h
      subst h1
      rfl

/-- Witness for `loading_branch_caches` at the empty filesystem: the
first run downloads once, and the run on its result fetches nothing. -/
theorem loading_branch_caches_witness :
    loadingBranch (okEffects Unit) ⟨true, true, false⟩
      = Except.ok (⟨true, true, false⟩, 0) :=
  loading_branch_caches ⟨false, false, false⟩ ⟨true, true, false⟩ 1 rfl

/-- C7: no error handling is implemented: on any run that reaches the
download (the index file is absent), a failure of `urlretrieve`
propagates unchanged out of the branch, and so does a failure of
`ZipFile(...).extractall` after a successful download.  No catch,
transformation or classification happens. -/
theorem errors_propagate_unchanged (ε : Type) (e : ε) (r : Except ε Unit) (fs : FS)
    (h : fs.indexExists = false) :
    loadingBranch ⟨Except.error e, r⟩ fs = Except.error e
      ∧ loadingBranch ⟨Except.ok (), Except.error e⟩ fs = Except.error e := by
  rcases fs with ⟨d, i, z⟩
  cases h
  cases d <;> exact ⟨rfl, rfl⟩

/-- Witness for `errors_propagate_unchanged`: a concrete download
failure on an empty filesystem comes back verbatim. -/
theorem errors_propagate_unchanged_witness :
    loadingBranch ⟨Except.error "HTTP 404", Except.ok ()⟩
        (⟨false, false, false⟩ : FS) = Except.error "HTTP 404"
      ∧ loadingBranch ⟨Except.ok (), Except.error "HTTP 404"⟩
        (⟨false, false, false⟩ : FS) = Except.error "HTTP 404" :=
  errors_propagate_unchanged String "HTTP 404" (Except.ok ()) ⟨false, false, false⟩ rfl

/-- C3 counterexample: not each of the three scripts performs, in
order, a dataset load, a network construction, a simulation run and
plotting: the routed-sequencing and structured-representation
notebooks contain no dataset load at all. -/
theorem three_scripts_counterexample :
    ¬ (fourPhaseScript autoencoderCells
        ∧ fourPhaseScript routedSequencingCells
        ∧ fourPhaseScript structuredRepCells) := by
  simp only [fourPhaseScript]
  decide

/-- C3 amended: the autoencoder script performs the four phases in
order; the routed-sequencing script loads no dataset and performs
construction, a simulation run and plotting in order; the
structured-representation script loads no dataset and performs
construction, a simulation run and plotting twice over (its plain model
and then its `spa`-package model). -/
theorem three_scripts_phases :
    fourPhaseScript autoencoderCells
      ∧ corePhases routedSequencingCells
          = [Phase.networkConstruct, Phase.simRun, Phase.plot]
      ∧ corePhases structuredRepCells
          = [Phase.networkConstruct, Phase.networkConstruct, Phase.simRun,
             Phase.plot, Phase.plot, Phase.plot,
             Phase.networkConstruct, Phase.simRun, Phase.plot]
      ∧ Phase.datasetLoad ∉ routedSequencingCells
      ∧ Phase.datasetLoad ∉ structuredRepCells := by
  refine ⟨rfl, rfl, rfl, ?_, ?_⟩ <;> decide

/-- C5: the autoencoder is trained to reconstruct its input through a
compressed intermediate representation: `gen_data` supplies the same
array for the output probe as for the input node, and the
dimensionality between encoder and decoder (`tf_encode.size_out =
tf_decode.size_in = n_hidden_2 = 128`) is strictly smaller than the
input/output dimensionality (`tf_encode.size_in = tf_decode.size_out =
n_input = 784`). -/
theorem autoencoder_reconstructs_compressed {δ : Type}
    (present : Nat → Nat → δ) (steps batchsize pos : Nat) :
    (gen_data present steps batchsize pos).2 NetObj.output_probe
        = (gen_data present steps batchsize pos).1 NetObj.inp
      ∧ n_hidden_2 < n_input
      ∧ tf_encode.size_out = n_hidden_2 ∧ tf_decode.size_in = n_hidden_2
      ∧ tf_encode.size_in = n_input ∧ tf_decode.size_out = n_input
      ∧ n_hidden_2 = 128 ∧ n_input = 784 := by
  refine ⟨?_, by decide, rfl, rfl, by decide, rfl, rfl, rfl⟩
  simp [gen_data]

/-- C9: for every time `t`, the routed-sequencing input function
`start` returns the string `0.8*START+D` exactly when `t < 0.4`, and
returns the string `0` exactly when `t ≥ 0.4`: the visual input is
withdrawn for all `t ≥ 0.4`. -/
theorem start_input_switches_at_04 (t : ℚ) :
    (start t = "0.8*START+D" ↔ t < 0.4) ∧ (start t = "0" ↔ ¬ t < 0.4) := by
  by_cases h : t < 0.4 <;> simp [start, h]

/-- Helper: the inner training loop only rebinds `round_time`,
`start_time` and the clock; it leaves `losses`, `counted` and `delta`
untouched. -/
theorem innerTrainLoop_core (timeF : Nat → ℚ) (s : TrainState) :
    (innerTrainLoop timeF s).losses = s.losses
      ∧ (innerTrainLoop timeF s).counted = s.counted
      ∧ (innerTrainLoop timeF s).delta = s.delta := by
  have key : ∀ (l : List Nat) (s : TrainState),
      ((l.foldl (fun s i => innerStep timeF i s) s).losses = s.losses
        ∧ (l.foldl (fun s i => innerStep timeF i s) s).counted = s.counted
        ∧ (l.foldl (fun s i => innerStep timeF i s) s).delta = s.delta) := by
    intro l
    induction l with
    | nil => exact fun s => ⟨rfl, rfl, rfl⟩
    | cons i l ih => exact fun s => ih (innerStep timeF i s)
  exact key (List.range n_iters) s

/-- Helper: one outer-loop iteration appends one loss value and
increments `counted` once. -/
theorem repetitionStep_core (timeF lossF : Nat → ℚ) (s : TrainState) :
    (repetitionStep timeF lossF s).losses = s.losses ++ [lossF s.losses.length]
      ∧ (repetitionStep timeF lossF s).counted = s.counted + 1 := by
  have h := innerTrainLoop_core timeF (repetitionBody lossF s)
  exact ⟨h.1, h.2.1⟩

/-- Helper: across `k` iterations of the outer loop, `counted` grows by
`k` and `losses` gains `k` entries. -/
theorem repetitionsLoop_core (timeF lossF : Nat → ℚ) (k : Nat) (s : TrainState) :
    (repetitionsLoop timeF lossF k s).counted = s.counted + k
      ∧ (repetitionsLoop timeF lossF k s).losses.length = s.losses.length + k := by
  induction k generalizing s with
  | zero => exact ⟨rfl, rfl⟩
  | succ k ih =>
    have hsplit : repetitionsLoop timeF lossF (k + 1) s
        = repetitionStep timeF lossF (repetitionsLoop timeF lossF k s) := by
      simp only [repetitionsLoop, List.range_succ, List.foldl_append,
        List.foldl_cons, List.foldl_nil]
    have hstep := repetitionStep_core timeF lossF (repetitionsLoop timeF lossF k s)
    have hloop := ih s
    constructor
    · rw [hsplit, hstep.2, hloop.1]
      omega
    · rw [hsplit, hstep.1, List.length_append, hloop.2]
      simp only [List.length_singleton]
      omega

/-- C6 counterexample: the claim that no notebook maintains its own
mutable state across iterations of an original control loop would make
the training cell's repetition loop leave the notebook's variables
unchanged.  It does not: one iteration of the loop already changes them
(it increments `counted` from 0 to 1). -/
theorem notebook_state_counterexample :
    repetitionsLoop (fun _ => 0) (fun _ => 0) 1 (initTrainState fun _ => 0)
      ≠ initTrainState fun _ => 0 := by
  intro h
  have hc := congrArg TrainState.counted h
  rw [(repetitionsLoop_core (fun _ => 0) (fun _ => 0) 1 (initTrainState fun _ => 0)).1] at hc
  simp [initTrainState] at hc

/-- C6 amended: apart from the autoencoder training cell, the
notebooks only pass configuration into external constructors; that cell
does maintain its own mutable state (`losses`, `counted`, `delta`,
`round_time`, `start_time`) across the iterations of its repetition
loop: starting from the cell's initial assignments, after `k`
iterations the notebook's counter equals `k` and its loss list holds
`k` values. -/
theorem training_loop_owns_state (timeF lossF : Nat → ℚ) (k : Nat) :
    (repetitionsLoop timeF lossF k (initTrainState timeF)).counted = k
      ∧ (repetitionsLoop timeF lossF k (initTrainState timeF)).losses.length = k := by
  have h := repetitionsLoop_core timeF lossF k (initTrainState timeF)
  simpa [initTrainState] using h

/-- C10 counterexample: with `LOADING = True` the training cell ends
with `counted = 1` but two entries in `losses` (the loading branch
appends a loss without incrementing `counted`), so `counted` does not
equal the length of `losses` in both cases. -/
theorem counted_vs_losses_counterexample :
    ¬ ((trainCell true (fun _ => 0) (fun _ => 0)).counted
        = (trainCell true (fun _ => 0) (fun _ => 0)).losses.length) := by
  decide

/-- C10 amended: after the training cell completes, `losses` holds
exactly `repetitions + 1 = 16` values when `LOADING` is `False` (one
appended before each of the 15 repetitions plus one final append) and
exactly 2 values when `LOADING` is `True`; `counted` equals the length
of `losses` when `LOADING` is `False`, while when `LOADING` is `True`
it ends at 1, one less than the length of `losses`. -/
theorem losses_counted_after_training (timeF lossF : Nat → ℚ) :
    (trainCell false timeF lossF).losses.length = repetitions + 1
      ∧ repetitions + 1 = 16
      ∧ (trainCell false timeF lossF).counted = (trainCell false timeF lossF).losses.length
      ∧ (trainCell true timeF lossF).losses.length = 2
      ∧ (trainCell true timeF lossF).counted = 1
      ∧ (trainCell true timeF lossF).counted + 1
          = (trainCell true timeF lossF).losses.length := by
  have h := repetitionsLoop_core timeF lossF repetitions (initTrainState timeF)
  have hlen : (trainCell false timeF lossF).losses.length = repetitions + 1 := by
    simp only [trainCell, if_neg, Bool.false_eq_true, not_false_iff, if_false,
      List.length_append, List.length_singleton, h.2]
    simp [initTrainState]
  have hcount : (trainCell false timeF lossF).counted = repetitions + 1 := by
    simp only [trainCell, if_neg, Bool.false_eq_true, not_false_iff, if_false, h.1]
    simp [initTrainState]
  refine ⟨hlen, rfl, ?_, rfl, rfl, rfl⟩
  rw [hlen, hcount]

end NengoExamples
